import Mathlib

/-!
Shallow embedding of the Eyece worker/connection core
(`src/eye/subscription.rs`, `src/eye/connection.rs`, `src/model/*.rs`).

The Rust worker is a `futures::stream::unfold` state machine owning an
opaque `Device` capability.  Device calls are modelled by a record of
result-valued fields (the device "oracle"); the command channel is
externalised: each iteration of the unfold receives the observation the
worker would make on the channel (`recv` in `Idle`, `try_recv` in
`Streaming`).  Frame sources are modelled as the script of results that
successive `stream.next()` calls return.  Where the order of device
operations matters, the step function additionally returns the list of
device operations it performed, in source order.
-/

namespace Eyece

/-- `eye::format::PixelFormat` — only the `Bgra(bits)` constructor is used
by this repository; every other layout is collapsed into `Other`. -/
inductive PixelFormat where
  | Bgra (bits : Nat)
  | Other (tag : String)
deriving DecidableEq

/-- `model::format::Format` (width/height only, `src/model/format.rs`). -/
structure ModelFormat where
  width : Nat
  height : Nat
deriving DecidableEq

/-- The `eye` crate's `Format`: resolution plus pixel format. -/
structure EyeFormat where
  width : Nat
  height : Nat
  pixfmt : PixelFormat
deriving DecidableEq

/-- One entry of `Device::query_formats()` (fields used by the code:
`pixfmt`, `width`, `height`). -/
structure FormatInfo where
  pixfmt : PixelFormat
  width : Nat
  height : Nat
deriving DecidableEq

/-- `std::io::ErrorKind` — the two kinds the worker constructs, plus a
catch-all for device-produced errors. -/
inductive ErrorKind where
  | InvalidData
  | InvalidInput
  | OtherKind
deriving DecidableEq

/-- `std::io::Error`, as constructed by `io::Error::new(kind, msg)`. -/
structure IOErr where
  kind : ErrorKind
  msg : String
deriving DecidableEq

/-- `eye::control::Representation` (variants used by the repository:
`Button`, `Boolean`, `Integer { range, step, default }`; everything else
is the `_` arm of the source's matches). -/
structure IntegerRepr where
  low : Int
  high : Int
  step : Int
  default : Int
deriving DecidableEq

inductive Representation where
  | Button
  | Boolean
  | Integer (i : IntegerRepr)
  | Unrecognized (tag : String)
deriving DecidableEq

/-- `eye::control::Value`. -/
inductive Value where
  | None
  | Boolean (b : Bool)
  | Integer (i : Int)
  | Text (s : String)
deriving DecidableEq

/-- The driver-side `eye::control::Control` (called `Control_` in
`src/model/control.rs`): id, name and representation. -/
structure ControlInfo where
  id : Nat
  name : String
  repr : Representation
deriving DecidableEq

/-- `model::control::Control`. -/
structure Control where
  id : Nat
  name : String
  representation : Representation
  value : Value
deriving DecidableEq

/-- `impl From<&Control_> for Control` (`src/model/control.rs` lines
12-21): copies id, name and representation, value starts as `None`. -/
def Control.fromInfo (ctrl : ControlInfo) : Control :=
  { id := ctrl.id
    name := ctrl.name
    representation := ctrl.repr
    value := Value.None }

/-- A decoded frame (`width()`, `height()`, `as_bytes()`). -/
structure Frame where
  width : Nat
  height : Nat
  bytes : List Nat
deriving DecidableEq

/-- `iced::image::Handle::from_pixels(width, height, pixels)`. -/
structure ImageHandle where
  width : Nat
  height : Nat
  pixels : List Nat
deriving DecidableEq

/-- A frame source (`ImageStream`): the script of results successive
`next()` calls return.  An exhausted script models `next()` returning
`None` ("stream died"). -/
abbrev FrameSrc := List (Except IOErr Frame)

/-- The opaque `Device` capability: each method is modelled by the result
it returns when the worker calls it. -/
structure Device where
  query_formats : Except IOErr (List FormatInfo)
  query_controls : Except IOErr (List ControlInfo)
  format : Except IOErr EyeFormat
  set_format : EyeFormat → Except IOErr EyeFormat
  control : Nat → Except IOErr Value
  set_control : Nat → Value → Except IOErr Unit
  stream : Except IOErr FrameSrc

/-- `connection::Request` (`src/eye/connection.rs` lines 46-54; the
`GetFormat` variant is matched by `subscription.rs` lines 74/205/278). -/
inductive Request where
  | StartStream
  | StopStream
  | QueryFormats
  | QueryControls
  | GetFormat
  | SetFormat (fmt : ModelFormat)
  | SetControl (ctrl : Control)
deriving DecidableEq

deriving instance DecidableEq for Except

/-- `connection::Response`. -/
inductive Response where
  | StartStream (r : Except IOErr Unit)
  | StopStream (r : Except IOErr Unit)
  | QueryFormats (r : Except IOErr (List ModelFormat))
  | QueryControls (r : Except IOErr (List Control))
  | GetFormat (r : Except IOErr ModelFormat)
  | SetFormat (r : Except IOErr ModelFormat)
  | SetControl (r : Except IOErr Control)
deriving DecidableEq

/-- `subscription::Event`.  `Connected` carries the `Connection` handle in
the source; the handle contributes nothing to the worker's behaviour, so
it is not modelled as a payload. -/
inductive Event where
  | Error (e : IOErr)
  | Connected
  | Disconnected
  | Response (r : Response)
  | Stream (h : ImageHandle)
deriving DecidableEq

/-- Worker state (`subscription::State`).  The channel receiver held by
`Idle`/`Streaming` is externalised (channel observations are step inputs),
so only the owned capabilities appear here. -/
inductive State where
  | Ready (uri : String)
  | Idle (device : Device)
  | Streaming (device : Device) (stream : FrameSrc)
  | Finished

def State.isStreaming : State → Bool
  | .Streaming _ _ => true
  | _ => false

def State.isFinished : State → Bool
  | .Finished => true
  | _ => false

/-- Result of `mpsc::Receiver::recv()` (blocking, used in `Idle`). -/
inductive Recv where
  | ok (req : Request)
  | disconnected

/-- Result of `mpsc::Receiver::try_recv()` (non-blocking, used in
`Streaming`). -/
inductive TryRecv where
  | ok (req : Request)
  | empty
  | disconnected

/-- Device/stream operations, logged in the order the worker performs
them (used to state ordering and resource invariants). -/
inductive DevOp where
  | dropStream
  | getFormat
  | setFormat (f : EyeFormat)
  | openStreamOk
  | openStreamErr
  | readControl (id : Nat)
  | writeControl (id : Nat) (v : Value)
  | queryFormats
  | queryControls
  | frameNext
deriving DecidableEq

/-- The pixel layout the worker requests during negotiation
(`subscription.rs` line 151: `format.pixfmt = PixelFormat::Bgra(32)`). -/
def targetPixelFormat : PixelFormat := .Bgra 32

/-- The pixel layout the `QueryFormats` handler filters for
(`subscription.rs` line 33: `info.pixfmt == PixelFormat::Bgra(24)`). -/
def queryFilterPixfmt : PixelFormat := .Bgra 24

/-- The control-value loop inside the `QueryControls` handler
(`subscription.rs` lines 56-67): for `Boolean` and `Integer` controls read
the current value and attach it when the read succeeds.  The second
component logs the reads issued. -/
def attachValuesT (device : Device) : List Control → List Control × List DevOp
  | [] => ([], [])
  | control :: rest =>
    let (c, ops) :=
      match control.representation with
      | .Boolean | .Integer _ =>
        (match device.control control.id with
         | .ok val => { control with value := val }
         | .error _ => control,
         [DevOp.readControl control.id])
      | _ => (control, [])
    let (rest', ops') := attachValuesT device rest
    (c :: rest', ops ++ ops')

/-- `Subscription::handle_request` (`subscription.rs` lines 25-108), with
the device operations it performs logged in source order as the second
component. -/
def handle_requestT (device : Device) (request : Request) :
    Option Response × List DevOp :=
  match request with
  | .QueryFormats =>
    match device.query_formats with
    | .ok info =>
      (some (.QueryFormats (.ok
        ((info.filter (fun i => i.pixfmt == queryFilterPixfmt)).map
          (fun i => { width := i.width, height := i.height })))),
       [DevOp.queryFormats])
    | .error e => (some (.QueryFormats (.error e)), [DevOp.queryFormats])
  | .QueryControls =>
    match device.query_controls with
    | .ok info =>
      let controls := info.map Control.fromInfo
      let (controls, reads) := attachValuesT device controls
      (some (.QueryControls (.ok controls)), DevOp.queryControls :: reads)
    | .error e => (some (.QueryControls (.error e)), [DevOp.queryControls])
  | .GetFormat =>
    match device.format with
    | .ok fmt =>
      (some (.GetFormat (.ok { width := fmt.width, height := fmt.height })),
       [DevOp.getFormat])
    | .error e => (some (.GetFormat (.error e)), [DevOp.getFormat])
  | .SetFormat fmt =>
    match device.format with
    | .ok format =>
      let format' := { format with width := fmt.width, height := fmt.height }
      match device.set_format format' with
      | .ok g =>
        (some (.SetFormat (.ok { width := g.width, height := g.height })),
         [DevOp.getFormat, DevOp.setFormat format'])
      | .error e =>
        (some (.SetFormat (.error e)),
         [DevOp.getFormat, DevOp.setFormat format'])
    | .error e => (some (.SetFormat (.error e)), [DevOp.getFormat])
  | .SetControl ctrl =>
    match device.set_control ctrl.id ctrl.value with
    | .ok _ => (some (.SetControl (.ok ctrl)), [DevOp.writeControl ctrl.id ctrl.value])
    | .error e => (some (.SetControl (.error e)), [DevOp.writeControl ctrl.id ctrl.value])
  | _ => (none, [])

def handle_request (device : Device) (request : Request) : Option Response :=
  (handle_requestT device request).1

/-- The `match Self::handle_request(..) { Some(res) => Event::Response(res),
None => Event::Error(InvalidInput, "cannot handle request") }` pattern
repeated at `subscription.rs` lines 208-214, 245-254 and 280-286. -/
def requestEvent : Option Response → Event
  | some res => .Response res
  | none => .Error { kind := .InvalidInput, msg := "cannot handle request" }

/-- The `State::Ready` arm (`subscription.rs` lines 132-174).
`Context::open_device(&uri)` is externalised as `openRes`. -/
def stepReady (openRes : Except IOErr Device) : Option (Event × State) :=
  match openRes with
  | .error e => some (.Error e, .Finished)
  | .ok device =>
    match device.format with
    | .error e => some (.Error e, .Finished)
    | .ok format =>
      match device.set_format { format with pixfmt := targetPixelFormat } with
      | .error e => some (.Error e, .Finished)
      | .ok format =>
        if format.pixfmt ≠ targetPixelFormat then
          some (.Error { kind := .InvalidData,
                         msg := "device does not support BGRA capture" },
                .Finished)
        else
          some (.Connected, .Idle device)

/-- The `State::Idle` arm (`subscription.rs` lines 175-226). -/
def stepIdle (device : Device) (r : Recv) : Option (Event × State) :=
  match r with
  | .disconnected => some (.Disconnected, .Finished)
  | .ok request =>
    match request with
    | .StartStream =>
      match device.stream with
      | .ok stream =>
        some (.Response (.StartStream (.ok ())), .Streaming device stream)
      | .error e =>
        some (.Response (.StartStream (.error e)), .Idle device)
    | .QueryFormats | .QueryControls | .GetFormat | .SetFormat _ | .SetControl _ =>
      some (requestEvent (handle_request device request), .Idle device)
    | _ =>
      some (.Error { kind := .InvalidInput,
                     msg := "cannot handle this request in idle state" },
            .Idle device)

/-- The `State::Streaming` arm (`subscription.rs` lines 227-342), with the
device/stream operations performed logged in source order.  `try_recv`
errors — `Empty` as well as `Disconnected` — fall through to
`stream.next()` (the `Err(_) => { /* ignore */ }` arm at line 311). -/
def stepStreamingT (device : Device) (stream : FrameSrc) (t : TryRecv) :
    Option (Event × State) × List DevOp :=
  match t with
  | .ok req =>
    match req with
    | .StopStream =>
      (some (.Response (.StopStream (.ok ())), .Idle device), [DevOp.dropStream])
    | .SetFormat fmt =>
      -- the stream is dropped first, then the shared handler runs, then
      -- the stream is reopened
      let hr := handle_requestT device (.SetFormat fmt)
      match device.stream with
      | .ok stream' =>
        (some (requestEvent hr.1, .Streaming device stream'),
         (DevOp.dropStream :: hr.2) ++ [DevOp.openStreamOk])
      | .error e =>
        (some (.Response (.SetFormat (.error e)), .Idle device),
         (DevOp.dropStream :: hr.2) ++ [DevOp.openStreamErr])
    | .QueryFormats | .QueryControls | .GetFormat | .SetControl _ =>
      (some (requestEvent (handle_request device req), .Streaming device stream),
       (handle_requestT device req).2)
    | _ =>
      (some (.Error { kind := .InvalidInput,
                      msg := "cannot handle this request in streaming state" },
             .Streaming device stream),
       [])
  | .empty | .disconnected =>
    match stream with
    | .ok frame :: rest =>
      (some (.Stream { width := frame.width, height := frame.height,
                       pixels := frame.bytes },
             .Streaming device rest),
       [DevOp.frameNext])
    | .error e :: _ =>
      (some (.Error e, .Idle device), [DevOp.frameNext])
    | [] =>
      (some (.Error { kind := .InvalidInput, msg := "stream died" },
             .Idle device),
       [DevOp.frameNext])

def stepStreaming (device : Device) (stream : FrameSrc) (t : TryRecv) :
    Option (Event × State) :=
  (stepStreamingT device stream t).1

/-- The per-iteration inputs of a worker run: the result device opening
would give (used in `Ready`), the blocking receive (used in `Idle`) and
the non-blocking poll (used in `Streaming`). -/
structure StepIn where
  openRes : Except IOErr Device
  recv : Recv
  tryRecv : TryRecv

/-- One iteration of the unfold. -/
def step (s : State) (i : StepIn) : Option (Event × State) :=
  match s with
  | .Ready _ => stepReady i.openRes
  | .Idle device => stepIdle device i.recv
  | .Streaming device stream => stepStreaming device stream i.tryRecv
  | .Finished => none

/-- The event trace of a worker run over scripted per-iteration inputs. -/
def runWorker : State → List StepIn → List Event
  | _, [] => []
  | s, i :: is =>
    match step s i with
    | none => []
    | some (e, s') => e :: runWorker s' is

/-! ### The `Connection` handle (`src/eye/connection.rs`)

Every public method serializes a `Request` and calls
`self.comm.send(..).unwrap()`.  `mpsc::Sender::send` fails exactly when
the receiving side no longer exists; `unwrap` on that failure panics the
calling thread.  `receiverAlive` models whether the worker-side receiver
still exists; a result of `none` models the panic, `some ()` a normal
return. -/

namespace Connection

/-- `mpsc::Sender::send`: `Err` exactly when the receiver is gone. -/
def send (receiverAlive : Bool) (_ : Request) : Except Unit Unit :=
  if receiverAlive then .ok () else .error ()

/-- `.unwrap()` on the send result; `none` models the panic. -/
def unwrapSend : Except Unit Unit → Option Unit
  | .ok _ => some ()
  | .error _ => none

def start_stream (receiverAlive : Bool) : Option Unit :=
  unwrapSend (send receiverAlive .StartStream)

def stop_stream (receiverAlive : Bool) : Option Unit :=
  unwrapSend (send receiverAlive .StopStream)

def query_formats (receiverAlive : Bool) : Option Unit :=
  unwrapSend (send receiverAlive .QueryFormats)

def query_controls (receiverAlive : Bool) : Option Unit :=
  unwrapSend (send receiverAlive .QueryControls)

def set_format (receiverAlive : Bool) (fmt : ModelFormat) : Option Unit :=
  unwrapSend (send receiverAlive (.SetFormat fmt))

def set_control (receiverAlive : Bool) (ctrl : Control) : Option Unit :=
  unwrapSend (send receiverAlive (.SetControl ctrl))

/-- `impl Drop for Connection` (`connection.rs` lines 10-14): calls
`self.stop_stream()`. -/
def drop (receiverAlive : Bool) : Option Unit :=
  stop_stream receiverAlive

end Connection

/-! ### Trace instrumentation -/

/-- Net effect of one device operation on the number of open frame
sources. -/
def streamDelta : DevOp → Int
  | .dropStream => -1
  | .openStreamOk => 1
  | _ => 0

/-- Number of frame sources open after `ops`, for an iteration that
starts with exactly one open frame source. -/
def liveAfter (ops : List DevOp) : Int :=
  1 + (ops.map streamDelta).sum

/-- Running maximum of the number of open frame sources along `ops`. -/
def maxLiveAux : Int → Int → List DevOp → Int
  | _, mx, [] => mx
  | cur, mx, op :: ops =>
    maxLiveAux (cur + streamDelta op) (max mx (cur + streamDelta op)) ops

def maxLive (ops : List DevOp) : Int := maxLiveAux 1 1 ops

/-- Does the `QueryControls` value loop read this representation?
(`Boolean` and `Integer` arms of the match at `subscription.rs` 57-66.) -/
def readsValue : Representation → Bool
  | .Boolean => true
  | .Integer _ => true
  | _ => false

def Event.isFrame : Event → Bool
  | .Stream _ => true
  | _ => false

def Event.isResponse : Event → Bool
  | .Response _ => true
  | _ => false

/-- Number of command-result events strictly before the next frame event;
`none` when no frame event follows. -/
def cmdsUntilFrame : List Event → Option Nat
  | [] => none
  | e :: rest =>
    if e.isFrame then some 0
    else
      match cmdsUntilFrame rest with
      | some n => some (n + (if e.isResponse then 1 else 0))
      | none => none

/-- `true` when somewhere in the trace two consecutive frame events have
two or more command results between them. -/
def twoCmdsBetweenFrames : List Event → Bool
  | [] => false
  | e :: rest =>
    (e.isFrame &&
      (match cmdsUntilFrame rest with
       | some n => decide (2 ≤ n)
       | none => false))
    || twoCmdsBetweenFrames rest

/-! ### Concrete devices and inputs used by witnesses and
counterexamples -/

/-- A well-behaved device: current format 640x480 BGRA(32), echoes format
requests, no controls, opening a stream succeeds with an empty script. -/
def dev0 : Device :=
  { query_formats := .ok []
    query_controls := .ok []
    format := .ok { width := 640, height := 480, pixfmt := .Bgra 32 }
    set_format := fun f => .ok f
    control := fun _ => .ok .None
    set_control := fun _ _ => .ok ()
    stream := .ok [] }

/-- A device reporting exactly one format entry, in the pixel layout the
negotiation requests (BGRA 32-bit). -/
def dev4 : Device :=
  { dev0 with
    query_formats := .ok [{ pixfmt := .Bgra 32, width := 640, height := 480 }] }

/-- Driver controls of the witness device: an integer control, a boolean
control and a button. -/
def infos9 : List ControlInfo :=
  [{ id := 1, name := "exposure",
     repr := .Integer { low := 0, high := 100, step := 1, default := 50 } },
   { id := 2, name := "autofocus", repr := .Boolean },
   { id := 3, name := "trigger", repr := .Button }]

/-- A device with the three controls of `infos9`; reading control 1
yields 42, control 2 yields true, anything else fails. -/
def dev9 : Device :=
  { dev0 with
    query_controls := .ok infos9
    control := fun id =>
      if id = 1 then .ok (.Integer 42)
      else if id = 2 then .ok (.Boolean true)
      else .error { kind := .OtherKind, msg := "unreadable" } }

/-- The control list `handle_request dev9 QueryControls` returns. -/
def ctrls9 : List Control :=
  [{ id := 1, name := "exposure",
     representation := .Integer { low := 0, high := 100, step := 1, default := 50 },
     value := .Integer 42 },
   { id := 2, name := "autofocus", representation := .Boolean,
     value := .Boolean true },
   { id := 3, name := "trigger", representation := .Button, value := .None }]

/-- A device on which reopening a stream fails (used for the
`SetFormat`-while-streaming reopen-failure path). -/
def devS : Device :=
  { dev0 with stream := .error { kind := .OtherKind, msg := "stream open failed" } }

/-- Two concrete decoded frames. -/
def fr1 : Frame := { width := 1, height := 1, bytes := [0] }

def fr2 : Frame := { width := 1, height := 1, bytes := [9] }

/-- A step input whose channel observation is `t`; the `Ready`/`Idle`
fields are inert defaults for runs that never visit those states. -/
def inpTry (t : TryRecv) : StepIn :=
  { openRes := .error { kind := .OtherKind, msg := "" }
    recv := .disconnected
    tryRecv := t }

/-- A step input whose blocking receive yields `r`. -/
def inpRecv (r : Recv) : StepIn :=
  { openRes := .error { kind := .OtherKind, msg := "" }
    recv := r
    tryRecv := .empty }

/-! ### Helper lemmas -/

theorem maxLiveAux_ge (ops : List DevOp) :
    ∀ cur mx : Int, mx ≤ maxLiveAux cur mx ops := by
  induction ops with
  | nil => intro cur mx; simp [maxLiveAux]
  | cons op rest ih =>
    intro cur mx
    exact le_trans (le_max_left _ _) (ih _ _)

theorem maxLiveAux_take (ops : List DevOp) :
    ∀ (n : Nat) (cur mx : Int), cur ≤ mx →
      cur + ((ops.take n).map streamDelta).sum ≤ maxLiveAux cur mx ops := by
  induction ops with
  | nil =>
    intro n cur mx h
    simpa [maxLiveAux] using h
  | cons op rest ih =>
    intro n cur mx h
    cases n with
    | zero =>
      simpa [maxLiveAux] using le_trans h (maxLiveAux_ge (op :: rest) cur mx)
    | succ m =>
      have hrec :=
        ih m (cur + streamDelta op) (max mx (cur + streamDelta op)) (le_max_right _ _)
      simp only [List.take_succ_cons, List.map_cons, List.sum_cons, maxLiveAux]
      linarith

/-- Any prefix of the operation trace keeps the open-stream count below
the running maximum. -/
theorem liveAfter_take_le (ops : List DevOp) (n : Nat) :
    liveAfter (ops.take n) ≤ maxLive ops :=
  maxLiveAux_take ops n 1 1 le_rfl

/-- Elementwise description of the `QueryControls` value-attachment loop:
each driver control becomes a descriptor with the same id, name and
representation, and with the device's current value attached exactly for
`Boolean`/`Integer` controls whose read succeeds. -/
theorem attachValuesT_spec (device : Device) :
    ∀ infos : List ControlInfo,
      List.Forall₂ (fun (info : ControlInfo) (c : Control) =>
        c.id = info.id ∧ c.name = info.name ∧ c.representation = info.repr ∧
        c.value = (if readsValue info.repr then
            (match device.control info.id with
             | .ok v => v
             | .error _ => Value.None)
          else Value.None))
        infos (attachValuesT device (infos.map Control.fromInfo)).1 := by
  intro infos
  induction infos with
  | nil => simp [attachValuesT]
  | cons info rest ih =>
    cases hrep : info.repr with
    | Button =>
      simp only [List.map_cons, attachValuesT, Control.fromInfo, hrep]
      exact List.Forall₂.cons (by simp [readsValue, hrep]) ih
    | Boolean =>
      cases hc : device.control info.id with
      | ok v =>
        simp only [List.map_cons, attachValuesT, Control.fromInfo, hrep, hc]
        exact List.Forall₂.cons (by simp [readsValue, hrep, hc]) ih
      | error e =>
        simp only [List.map_cons, attachValuesT, Control.fromInfo, hrep, hc]
        exact List.Forall₂.cons (by simp [readsValue, hrep, hc]) ih
    | Integer i =>
      cases hc : device.control info.id with
      | ok v =>
        simp only [List.map_cons, attachValuesT, Control.fromInfo, hrep, hc]
        exact List.Forall₂.cons (by simp [readsValue, hrep, hc]) ih
      | error e =>
        simp only [List.map_cons, attachValuesT, Control.fromInfo, hrep, hc]
        exact List.Forall₂.cons (by simp [readsValue, hrep, hc]) ih
    | Unrecognized t =>
      simp only [List.map_cons, attachValuesT, Control.fromInfo, hrep]
      exact List.Forall₂.cons (by simp [readsValue, hrep]) ih

/-- The reads the `QueryControls` value loop issues are exactly one read
per `Boolean`/`Integer` control, in order. -/
theorem attachValuesT_ops (device : Device) :
    ∀ infos : List ControlInfo,
      (attachValuesT device (infos.map Control.fromInfo)).2 =
        infos.filterMap (fun info =>
          if readsValue info.repr then some (DevOp.readControl info.id) else none) := by
  intro infos
  induction infos with
  | nil => simp [attachValuesT]
  | cons info rest ih =>
    cases hrep : info.repr with
    | Button =>
      simp [attachValuesT, Control.fromInfo, hrep, readsValue, List.filterMap_cons, ih]
    | Boolean =>
      cases hc : device.control info.id <;>
        simp [attachValuesT, Control.fromInfo, hrep, hc, readsValue,
          List.filterMap_cons, ih]
    | Integer i =>
      cases hc : device.control info.id <;>
        simp [attachValuesT, Control.fromInfo, hrep, hc, readsValue,
          List.filterMap_cons, ih]
    | Unrecognized t =>
      simp [attachValuesT, Control.fromInfo, hrep, readsValue, List.filterMap_cons, ih]

theorem frameNext_notin_attach (device : Device) :
    ∀ cs : List Control, DevOp.frameNext ∉ (attachValuesT device cs).2 := by
  intro cs
  induction cs with
  | nil => simp [attachValuesT]
  | cons c rest ih =>
    cases hrep : c.representation with
    | Button => simpa [attachValuesT, hrep] using ih
    | Boolean =>
      cases hc : device.control c.id <;>
        simpa [attachValuesT, hrep, hc] using ih
    | Integer i =>
      cases hc : device.control c.id <;>
        simpa [attachValuesT, hrep, hc] using ih
    | Unrecognized t => simpa [attachValuesT, hrep] using ih

/-- The shared command handler never touches the frame source. -/
theorem frameNext_notin_handle (device : Device) (r : Request) :
    DevOp.frameNext ∉ (handle_requestT device r).2 := by
  cases r with
  | QueryFormats => cases h : device.query_formats <;> simp [handle_requestT, h]
  | QueryControls =>
    cases h : device.query_controls with
    | ok info =>
      simpa [handle_requestT, h] using frameNext_notin_attach device (info.map Control.fromInfo)
    | error e => simp [handle_requestT, h]
  | GetFormat => cases h : device.format <;> simp [handle_requestT, h]
  | SetFormat fmt =>
    cases h : device.format with
    | ok f =>
      cases h2 : device.set_format { f with width := fmt.width, height := fmt.height } <;>
        simp [handle_requestT, h, h2]
    | error e => simp [handle_requestT, h]
  | SetControl ctrl =>
    cases h : device.set_control ctrl.id ctrl.value <;> simp [handle_requestT, h]
  | StartStream => simp [handle_requestT]
  | StopStream => simp [handle_requestT]

/-! ### Claim theorems -/

/-- Claim C1, counterexample: a `StopStream` received while `Idle` is not
answered with a successful `CommandResult(StopStream, Ok)`; the worker
emits an `Error` event instead (the `_` arm of the idle match,
`subscription.rs` lines 218-224). -/
theorem C1_counterexample :
    (stepIdle dev0 (.ok .StopStream)).map Prod.fst ≠
      some (.Response (.StopStream (.ok ()))) ∧
    (stepIdle dev0 (.ok .StopStream)).map Prod.fst =
      some (.Error { kind := .InvalidInput,
                     msg := "cannot handle this request in idle state" }) := by
  exact ⟨by decide, rfl⟩

/-- Claim C1, amended: receiving `StopStream` while `Idle` emits an
`Error("cannot handle this request in idle state")` event — not a
successful `CommandResult` — and the worker remains `Idle`; sending
`StopStream` twice in a row while idle produces two such `Error` events. -/
theorem C1_amended (device : Device) :
    stepIdle device (.ok .StopStream) =
      some (.Error { kind := .InvalidInput,
                     msg := "cannot handle this request in idle state" },
            .Idle device) ∧
    runWorker (.Idle device) [inpRecv (.ok .StopStream), inpRecv (.ok .StopStream)] =
      [.Error { kind := .InvalidInput,
                msg := "cannot handle this request in idle state" },
       .Error { kind := .InvalidInput,
                msg := "cannot handle this request in idle state" }] :=
  ⟨rfl, rfl⟩

/-- Claim C2, counterexample: when the worker-side receiver is gone, every
public `Connection` method — and the `StopStream` enqueued by `Drop` —
panics (`send(..).unwrap()`, `connection.rs` lines 21-43) instead of
returning normally. -/
theorem C2_counterexample :
    Connection.stop_stream false ≠ some () ∧
    Connection.start_stream false = none ∧
    Connection.stop_stream false = none ∧
    Connection.query_formats false = none ∧
    Connection.query_controls false = none ∧
    Connection.set_format false { width := 640, height := 480 } = none ∧
    Connection.set_control false
      { id := 1, name := "c", representation := .Boolean, value := .Boolean true } = none ∧
    Connection.drop false = none :=
  ⟨by decide, rfl, rfl, rfl, rfl, rfl, rfl, rfl⟩

/-- Claim C2, amended: every public `Connection` method unwraps the send
result, so the call returns normally exactly when the worker-side
receiver is still alive and panics when it is gone; the same holds for
the `StopStream` enqueued on destruction. -/
theorem C2_amended (alive : Bool) (fmt : ModelFormat) (ctrl : Control) :
    Connection.start_stream alive = (if alive then some () else none) ∧
    Connection.stop_stream alive = (if alive then some () else none) ∧
    Connection.query_formats alive = (if alive then some () else none) ∧
    Connection.query_controls alive = (if alive then some () else none) ∧
    Connection.set_format alive fmt = (if alive then some () else none) ∧
    Connection.set_control alive ctrl = (if alive then some () else none) ∧
    Connection.drop alive = (if alive then some () else none) := by
  cases alive <;> exact ⟨rfl, rfl, rfl, rfl, rfl, rfl, rfl⟩

/-- Claim C3, counterexample: while `Streaming`, a poll observing the
closed channel (`try_recv` returning `Disconnected`) does not emit
`Disconnected` and does not reach `Finished`; the worker produces the
next frame and stays `Streaming` (the `Err(_) => { /* ignore */ }` arm,
`subscription.rs` line 311). -/
theorem C3_counterexample :
    (stepStreaming dev0 [.ok fr1] .disconnected).map Prod.fst ≠ some .Disconnected ∧
    (stepStreaming dev0 [.ok fr1] .disconnected).map (fun p => p.2.isStreaming) =
      some true ∧
    (stepStreaming dev0 [.ok fr1] .disconnected).map Prod.fst =
      some (.Stream { width := 1, height := 1, pixels := [0] }) :=
  ⟨by decide, rfl, rfl⟩

/-- Claim C3, amended: while `Streaming` the non-blocking poll treats a
closed command channel exactly like an empty one — the worker keeps
producing frames; `Disconnected` followed by `Finished` is emitted only
when the channel is found closed while `Idle`. -/
theorem C3_amended (device : Device) (stream : FrameSrc) :
    stepStreaming device stream .disconnected = stepStreaming device stream .empty ∧
    stepIdle device .disconnected = some (.Disconnected, .Finished) :=
  ⟨rfl, rfl⟩

/-- Claim C4: the `QueryFormats` handler filters with `Bgra(24)`
(`subscription.rs` line 33) while negotiation requests and verifies
`Bgra(32)` (lines 151-165).  A device whose only reported entry is in the
negotiated layout `Bgra(32)` — a device that passes negotiation — gets an
empty `QueryFormats` answer. -/
theorem C4_theorem :
    queryFilterPixfmt ≠ targetPixelFormat ∧
    handle_request dev4 .QueryFormats = some (.QueryFormats (.ok [])) ∧
    stepReady (.ok dev4) = some (.Connected, .Idle dev4) :=
  ⟨by decide, rfl, rfl⟩

/-- Claim C5: during `Opening` the worker reads the device format,
requests it back with the pixel layout replaced by the fixed target
(width and height preserved), and on any failure — open, format read,
format set, or a post-set pixel-layout mismatch — emits exactly one
`Error` event and transitions to `Finished` without ever emitting
`Connected`; otherwise it emits `Connected` and transitions to `Idle`. -/
theorem C5_theorem (device : Device) (e : IOErr) :
    (stepReady (.error e) = some (.Error e, .Finished)) ∧
    (device.format = .error e → stepReady (.ok device) = some (.Error e, .Finished)) ∧
    (∀ f, device.format = .ok f →
      device.set_format { f with pixfmt := targetPixelFormat } = .error e →
      stepReady (.ok device) = some (.Error e, .Finished)) ∧
    (∀ f g, device.format = .ok f →
      device.set_format { f with pixfmt := targetPixelFormat } = .ok g →
      g.pixfmt ≠ targetPixelFormat →
      stepReady (.ok device) =
        some (.Error { kind := .InvalidData,
                       msg := "device does not support BGRA capture" }, .Finished)) ∧
    (∀ f g, device.format = .ok f →
      device.set_format { f with pixfmt := targetPixelFormat } = .ok g →
      g.pixfmt = targetPixelFormat →
      stepReady (.ok device) = some (.Connected, .Idle device)) := by
  refine ⟨rfl, ?_, ?_, ?_, ?_⟩
  · intro h; simp [stepReady, h]
  · intro f h1 h2; simp [stepReady, h1, h2]
  · intro f g h1 h2 h3
    simp only [stepReady, h1, h2]
    rw [if_pos h3]
  · intro f g h1 h2 h3
    simp only [stepReady, h1, h2]
    rw [if_neg (not_not_intro h3)]

/-- Claim C5, witness: a device whose current format is 640x480 BGRA(32)
and which echoes format requests negotiates successfully. -/
theorem C5_witness :
    stepReady (.ok dev0) = some (.Connected, .Idle dev0) :=
  (C5_theorem dev0 { kind := .OtherKind, msg := "" }).2.2.2.2
    { width := 640, height := 480, pixfmt := .Bgra 32 }
    { width := 640, height := 480, pixfmt := .Bgra 32 } rfl rfl rfl

/-- Claim C6: while `Streaming` with no pending command, a frame-source
error — or the source ending — makes the worker emit exactly that one
`Error` event and fall back to `Idle` (not `Finished`), keeping the
device but not the frame source, so a later `StartStream` against a
working device succeeds and produces a new frame source. -/
theorem C6_theorem (device : Device) (rest : FrameSrc) (e : IOErr) :
    (stepStreaming device (.error e :: rest) .empty = some (.Error e, .Idle device)) ∧
    (stepStreaming device [] .empty =
      some (.Error { kind := .InvalidInput, msg := "stream died" }, .Idle device)) ∧
    ((stepStreamingT device (.error e :: rest) .empty).2 = [DevOp.frameNext]) ∧
    (∀ stream₂, device.stream = .ok stream₂ →
      stepIdle device (.ok .StartStream) =
        some (.Response (.StartStream (.ok ())), .Streaming device stream₂)) := by
  refine ⟨rfl, rfl, rfl, ?_⟩
  intro s2 h
  simp [stepIdle, h]

/-- Claim C6, witness: after the streaming failure, `StartStream` on a
device whose `stream()` succeeds resumes streaming. -/
theorem C6_witness :
    stepIdle dev0 (.ok .StartStream) =
      some (.Response (.StartStream (.ok ())), .Streaming dev0 []) :=
  (C6_theorem dev0 [] { kind := .OtherKind, msg := "" }).2.2.2 [] rfl

/-- Claim C7: a `SetFormat` drained while `Streaming` drops the old frame
source first (the trace begins with the drop), the number of open frame
sources never exceeds one at any point of the iteration's operation
trace, and the worker ends `Streaming` with the newly opened source on
reopen success and `Idle` on reopen failure. -/
theorem C7_theorem (device : Device) (stream : FrameSrc) (fmt : ModelFormat) :
    ((stepStreamingT device stream (.ok (.SetFormat fmt))).2.head? =
      some DevOp.dropStream) ∧
    (∀ n, liveAfter ((stepStreamingT device stream (.ok (.SetFormat fmt))).2.take n) ≤ 1) ∧
    (∀ stream', device.stream = .ok stream' →
      (stepStreamingT device stream (.ok (.SetFormat fmt))).1 =
        some (requestEvent (handle_request device (.SetFormat fmt)),
              .Streaming device stream')) ∧
    (∀ e, device.stream = .error e →
      (stepStreamingT device stream (.ok (.SetFormat fmt))).1 =
        some (.Response (.SetFormat (.error e)), .Idle device)) := by
  have hops : (stepStreamingT device stream (.ok (.SetFormat fmt))).2 =
      (DevOp.dropStream :: (handle_requestT device (.SetFormat fmt)).2) ++
        (match device.stream with
         | .ok _ => [DevOp.openStreamOk]
         | .error _ => [DevOp.openStreamErr]) := by
    cases h : device.stream <;> simp [stepStreamingT, h]
  have hhr : (handle_requestT device (.SetFormat fmt)).2 = [DevOp.getFormat] ∨
      ∃ f', (handle_requestT device (.SetFormat fmt)).2 =
        [DevOp.getFormat, DevOp.setFormat f'] := by
    cases hf : device.format with
    | error e => left; simp [handle_requestT, hf]
    | ok f =>
      right
      refine ⟨{ f with width := fmt.width, height := fmt.height }, ?_⟩
      cases hs : device.set_format { f with width := fmt.width, height := fmt.height } <;>
        simp [handle_requestT, hf, hs]
  have hmax : maxLive (stepStreamingT device stream (.ok (.SetFormat fmt))).2 ≤ 1 := by
    rw [hops]
    rcases hhr with h | ⟨f', h⟩ <;> rw [h] <;> cases hstream : device.stream <;>
      simp [maxLive, maxLiveAux, streamDelta]
  refine ⟨?_, ?_, ?_, ?_⟩
  · rw [hops]; rfl
  · intro n; exact le_trans (liveAfter_take_le _ n) hmax
  · intro s' h; simp [stepStreamingT, h, handle_request]
  · intro e h; simp [stepStreamingT, h]

/-- Claim C7, witness: with a device on which reopening succeeds, the
`SetFormat` iteration ends `Streaming` with the new frame source. -/
theorem C7_witness :
    (stepStreamingT dev0 [.ok fr1] (.ok (.SetFormat { width := 320, height := 240 }))).1 =
      some (requestEvent (handle_request dev0 (.SetFormat { width := 320, height := 240 })),
            .Streaming dev0 []) :=
  (C7_theorem dev0 [.ok fr1] { width := 320, height := 240 }).2.2.1 [] rfl

/-- Claim C8, counterexample: two commands queued while streaming are
handled in two consecutive iterations with no frame between them, so two
`CommandResult` events appear between two consecutive `FrameReady`
events — the claimed "at most one command between consecutive frames"
fails. -/
theorem C8_counterexample :
    runWorker (.Streaming dev0 [.ok fr1, .ok fr2])
        [inpTry .empty, inpTry (.ok .GetFormat), inpTry (.ok .GetFormat),
         inpTry .empty] =
      [.Stream { width := 1, height := 1, pixels := [0] },
       .Response (.GetFormat (.ok { width := 640, height := 480 })),
       .Response (.GetFormat (.ok { width := 640, height := 480 })),
       .Stream { width := 1, height := 1, pixels := [9] }] ∧
    twoCmdsBetweenFrames
      (runWorker (.Streaming dev0 [.ok fr1, .ok fr2])
        [inpTry .empty, inpTry (.ok .GetFormat), inpTry (.ok .GetFormat),
         inpTry .empty]) = true :=
  ⟨rfl, rfl⟩

/-- Claim C8, amended: within one `Streaming` iteration at most one
command is drained and a pending command is processed before — and
instead of — any frame call (its iteration never touches the frame
source), while an empty poll performs exactly one frame call and handles
no command; but between two consecutive `FrameReady` events arbitrarily
many commands may be handled, one per intervening iteration. -/
theorem C8_amended (device : Device) (stream : FrameSrc) (req : Request) :
    (DevOp.frameNext ∉ (stepStreamingT device stream (.ok req)).2) ∧
    ((stepStreamingT device stream .empty).2 = [DevOp.frameNext]) ∧
    ((stepStreaming device stream .empty).map (fun p => p.1.isResponse) =
      some false) := by
  refine ⟨?_, ?_, ?_⟩
  · cases req with
    | StopStream => simp [stepStreamingT]
    | SetFormat fmt =>
      cases h : device.stream <;>
        simp [stepStreamingT, h, frameNext_notin_handle]
    | QueryFormats =>
      simpa [stepStreamingT] using frameNext_notin_handle device .QueryFormats
    | QueryControls =>
      simpa [stepStreamingT] using frameNext_notin_handle device .QueryControls
    | GetFormat =>
      simpa [stepStreamingT] using frameNext_notin_handle device .GetFormat
    | SetControl ctrl =>
      simpa [stepStreamingT] using frameNext_notin_handle device (.SetControl ctrl)
    | StartStream => simp [stepStreamingT]
  · cases stream with
    | nil => rfl
    | cons head rest => cases head <;> rfl
  · cases stream with
    | nil => rfl
    | cons head rest => cases head <;> rfl

/-- Claim C9: on a successful `QueryControls`, each driver `ControlInfo`
becomes a descriptor with the same id, name and representation; for every
`Boolean` or `Integer` control the handler issues a follow-up read of its
current value (exactly one read per such control, in order — the
operation log) and attaches the value the read returns; `Button` and
unrecognized representations get no read and keep the `None` value. -/
theorem C9_theorem (device : Device) (infos : List ControlInfo) (cs : List Control) :
    device.query_controls = .ok infos →
    handle_request device .QueryControls = some (.QueryControls (.ok cs)) →
    (List.Forall₂ (fun (info : ControlInfo) (c : Control) =>
        c.id = info.id ∧ c.name = info.name ∧ c.representation = info.repr ∧
        c.value = (if readsValue info.repr then
            (match device.control info.id with
             | .ok v => v
             | .error _ => Value.None)
          else Value.None)) infos cs) ∧
    ((handle_requestT device .QueryControls).2 =
      DevOp.queryControls :: infos.filterMap (fun info =>
        if readsValue info.repr then some (DevOp.readControl info.id) else none)) := by
  intro h1 h2
  have hc : cs = (attachValuesT device (infos.map Control.fromInfo)).1 := by
    simp [handle_request, handle_requestT, h1] at h2
    exact h2.symm
  constructor
  · rw [hc]; exact attachValuesT_spec device infos
  · simp [handle_requestT, h1, attachValuesT_ops]

/-- Claim C9, witness: a device with an integer, a boolean and a button
control; the integer and boolean get their current values attached, the
button does not, and exactly two reads are issued. -/
theorem C9_witness :
    (List.Forall₂ (fun (info : ControlInfo) (c : Control) =>
        c.id = info.id ∧ c.name = info.name ∧ c.representation = info.repr ∧
        c.value = (if readsValue info.repr then
            (match dev9.control info.id with
             | .ok v => v
             | .error _ => Value.None)
          else Value.None)) infos9 ctrls9) ∧
    ((handle_requestT dev9 .QueryControls).2 =
      DevOp.queryControls :: infos9.filterMap (fun info =>
        if readsValue info.repr then some (DevOp.readControl info.id) else none)) :=
  C9_theorem dev9 infos9 ctrls9 rfl rfl

/-- Claim C10: when a `SetFormat` drained while `Streaming` reaches a
failing stream reopen, the iteration's single emitted event is
`CommandResult(SetFormat, Err(reopen error))` and the worker goes `Idle`
— the result of the format change itself is discarded, even when it was
a success. -/
theorem C10_theorem (device : Device) (stream : FrameSrc) (fmt : ModelFormat)
    (e : IOErr) :
    device.stream = .error e →
    (stepStreaming device stream (.ok (.SetFormat fmt)) =
      some (.Response (.SetFormat (.error e)), .Idle device)) ∧
    (∀ g, handle_request device (.SetFormat fmt) = some (.SetFormat (.ok g)) →
      (Event.Response (.SetFormat (.ok g))) ≠ (.Response (.SetFormat (.error e)))) := by
  intro h
  constructor
  · simp [stepStreaming, stepStreamingT, h]
  · intro g _
    simp

/-- Claim C10, witness: on a device where the format change succeeds but
`stream()` fails, the emitted event is the reopen error and the worker
goes `Idle`. -/
theorem C10_witness :
    stepStreaming devS [.ok fr1] (.ok (.SetFormat { width := 320, height := 240 })) =
      some (.Response (.SetFormat (.error { kind := .OtherKind,
                                            msg := "stream open failed" })),
            .Idle devS) :=
  (C10_theorem devS [.ok fr1] { width := 320, height := 240 }
    { kind := .OtherKind, msg := "stream open failed" } rfl).1

end Eyece
